import Mathlib

set_option linter.unusedVariables false

namespace NodriveGPM

/-!
Shallow embedding of the nodrive-gpm-package profile lifecycle core:
configuration (config.py), the profile status monitor
(services/profile_monitor.py), the GPM API client (api/gpm_client.py) and
the launch orchestrator (services/gpm_service.py).  External effects
(the HTTP registry, OS process/window inspection, the browser driver) are
supplied as explicit environments/oracles; the control flow, data flow and
branch conditions of the Python source are transcribed directly.
-/

/-- Models `GPMConfig` (config.py): the configuration surface consulted by the
monitor, the API client and the orchestrator.  Float-valued settings are
modelled as rationals; `profiles_dir` is the `profiles_directory` property. -/
structure GPMConfig where
  gpm_api_base_url : String
  profiles_dir : String
  browser_width : Nat
  browser_height : Nat
  browser_scale : ℚ
  max_browsers_per_line : Nat
  max_retries : Nat
  retry_delay : Nat
  connection_wait_time : Nat
  cpu_threshold : ℚ
  cpu_check_interval : ℚ
  debug : Bool

/-- Models `ProfileStatus` (enums/profile_status.py). -/
inductive ProfileStatus
  | STOPPED
  | RUNNING
  | PENDING
  | UNKNOWN
deriving DecidableEq, Repr

/-- Models `ProfileStatusResult` (profile_monitor.py lines 17-46): three
buckets of profile names. -/
structure ProfileStatusResult where
  stopped : List String
  running : List String
  pending : List String
deriving DecidableEq, Repr

/-- Models `ProfileStatusResult.get_status`: Python `in` on a list of strings
is membership by string equality, checked in the order running, pending,
stopped, with UNKNOWN as the fallthrough. -/
def ProfileStatusResult.get_status (r : ProfileStatusResult) (profile_name : String) :
    ProfileStatus :=
  if r.running.contains profile_name then .RUNNING
  else if r.pending.contains profile_name then .PENDING
  else if r.stopped.contains profile_name then .STOPPED
  else .UNKNOWN

/-- Models `ProfileStatusResult.is_running`: `profile_name in self.running`. -/
def ProfileStatusResult.is_running (r : ProfileStatusResult) (profile_name : String) : Bool :=
  r.running.contains profile_name

/-- Models `ProfileStatusResult.is_pending`: `profile_name in self.pending`. -/
def ProfileStatusResult.is_pending (r : ProfileStatusResult) (profile_name : String) : Bool :=
  r.pending.contains profile_name

/-- Does the character list start with the given pattern? (Executable
kernel-friendly primitive for the Python substring test.) -/
def startsWithChars : List Char → List Char → Bool
  | _, [] => true
  | [], _ :: _ => false
  | a :: as, b :: bs => a == b && startsWithChars as bs

/-- Does the pattern occur as a contiguous run of the character list? -/
def hasSubChars (pat : List Char) : List Char → Bool
  | [] => startsWithChars [] pat
  | h :: t => startsWithChars (h :: t) pat || hasSubChars pat t

/-- Python substring test `pat in s` on strings (the empty pattern is always
found), computed on the underlying character lists. -/
def strContains (s pat : String) : Bool :=
  hasSubChars pat.data s.data

/-- `os.path.join(dir, basename)` for the Windows host the source targets
(profile_monitor.py imports win32gui): joins with a backslash. -/
def osPathJoin (a b : String) : String := a ++ "\\" ++ b

/-- Python `str.lower()`, character by character. -/
def strLower (s : String) : String := ⟨s.data.map Char.toLower⟩

/-- The normalisation applied in `check_all_profiles_status` line 125 and
`_get_chrome_processes` line 185: `.lower().replace("\\", "/")` — since the
replaced pattern is a single character this is a character map. -/
def normalizePath (s : String) : String :=
  ⟨s.data.map fun c => if c = '\\' then '/' else c.toLower⟩

/-- Python `" ".join(parts)`. -/
def joinSpace : List String → String
  | [] => ""
  | [s] => s
  | s :: rest => s ++ " " ++ joinSpace rest

/-- One row of `psutil.process_iter(["pid", "name", "cmdline", "cpu_percent"])`
as observed by `_get_chrome_processes`: `accessible = false` models the
process vanishing (NoSuchProcess/AccessDenied/ZombieProcess, which the scan
silently skips); `name`/`cmdline` may be absent exactly as in psutil. -/
structure RawProc where
  pid : Nat
  name : Option String
  cmdline : Option (List String)
  cpu_percent : ℚ
  accessible : Bool

/-- The scanned-process record built by `_get_chrome_processes`
(profile_monitor.py lines 176-198). -/
structure ProcInfo where
  pid : Nat
  name : String
  cpu_initial : ℚ
  cmdline : String

/-- Models `ProfileMonitor._get_chrome_processes`: keep accessible processes
whose name contains "chrome" (case-insensitive), with the command line joined
by spaces, lowercased and backslash-normalised. -/
def _get_chrome_processes (procs : List RawProc) : List ProcInfo :=
  procs.filterMap fun p =>
    if p.accessible = false then none
    else
      match p.name with
      | none => none
      | some nm =>
        if strContains (strLower nm) "chrome" then
          some ⟨p.pid, nm, p.cpu_percent,
                normalizePath (joinSpace (p.cmdline.getD []))⟩
        else none

/-- The OS-observation environment of one `check_all_profiles_status` call:
whether the profiles root exists, the directory names under it
(`os.listdir` filtered to directories), the process table, the pids owning
the foreground window, and the re-sampled CPU reading per pid
(`none` models the process vanishing during `psutil.Process(pid)` /
`cpu_percent`, which the source swallows). -/
structure MonitorEnv where
  root_exists : Bool
  dir_entries : List String
  procs : List RawProc
  active_pids : List Nat
  cpu_current : Nat → Option ℚ

/-- Python `abs()` on a rational. -/
def ratAbs (q : ℚ) : ℚ := if q < 0 then -q else q

/-- The per-profile status record `{"is_running": ..., "status": ...}`
returned by `_check_profile_status`. -/
structure StatusInfo where
  is_running : Bool
  status : String
deriving DecidableEq, Repr

/-- Models `ProfileMonitor._check_profile_status` (lines 221-260): no
matching process means stopped; otherwise the profile is running when any
matching process owns the foreground window or shows CPU activity (delta or
either absolute sample above the threshold), else pending. -/
def _check_profile_status (cfg : GPMConfig) (env : MonitorEnv)
    (processes : List ProcInfo) : StatusInfo :=
  if processes.isEmpty then ⟨false, "stopped"⟩
  else
    let is_active_window := processes.any fun proc => env.active_pids.contains proc.pid
    let cpu_changed := processes.any fun proc =>
      match env.cpu_current proc.pid with
      | none => false
      | some cpu_current =>
        decide (ratAbs (cpu_current - proc.cpu_initial) > cfg.cpu_threshold) ||
        decide (proc.cpu_initial > cfg.cpu_threshold) ||
        decide (cpu_current > cfg.cpu_threshold)
    let is_running := cpu_changed || is_active_window
    ⟨true, if is_running then "running" else "pending"⟩

/-- The process-to-profile match of `check_all_profiles_status` lines 139-144:
a process belongs to a profile when the normalised joined path or the
lowercased bare profile name occurs in its command line. -/
def matchingProcs (cfg : GPMConfig) (chrome : List ProcInfo) (profile : String) :
    List ProcInfo :=
  chrome.filter fun proc =>
    strContains proc.cmdline (normalizePath (osPathJoin cfg.profiles_dir profile)) ||
    strContains proc.cmdline (strLower profile)

/-- The first branch condition of the bucket loop (line 167):
`not status_info["is_running"] or status_info["status"] == "stopped"`. -/
def stoppedCase (info : StatusInfo) : Bool :=
  !info.is_running || info.status == "stopped"

/-- The effective condition for the `running` bucket: the elif at line 169,
reached only when the stopped branch was not taken. -/
def runningCase (info : StatusInfo) : Bool :=
  !(stoppedCase info) && info.status == "running"

/-- The effective condition for the `pending` bucket: the elif at line 171,
reached only when neither earlier branch was taken. -/
def pendingCase (info : StatusInfo) : Bool :=
  !(stoppedCase info) && !(info.status == "running") && info.status == "pending"

/-- The bucket-assignment loop of `check_all_profiles_status` lines 164-172,
written as structural recursion over the (insertion-ordered) per-profile
results: `stopped` when not is_running or status "stopped", else `running`
or `pending` by the status string. -/
def transformResults : List (String × StatusInfo) → ProfileStatusResult
  | [] => ⟨[], [], []⟩
  | (p, info) :: rest =>
    let r := transformResults rest
    if stoppedCase info then
      ⟨p :: r.stopped, r.running, r.pending⟩
    else if info.status == "running" then
      ⟨r.stopped, p :: r.running, r.pending⟩
    else if info.status == "pending" then
      ⟨r.stopped, r.running, p :: r.pending⟩
    else r

/-- Models `ProfileMonitor.check_all_profiles_status` (lines 102-174):
missing root yields the empty result; no profile directories or no chrome
processes yield all-stopped; otherwise each profile's matching processes are
classified and the per-profile results are folded into the three buckets.
The worker pool only parallelises the per-profile classification; the result
dict is keyed by the (distinct) `os.listdir` entries in submission order,
which the `List.map` reproduces. -/
def check_all_profiles_status (cfg : GPMConfig) (env : MonitorEnv) :
    ProfileStatusResult :=
  if env.root_exists = false then ⟨[], [], []⟩
  else
    let profiles := env.dir_entries
    if profiles.isEmpty then ⟨profiles, [], []⟩
    else
      let chrome := _get_chrome_processes env.procs
      if chrome.isEmpty then ⟨profiles, [], []⟩
      else
        transformResults (profiles.map fun p =>
          (p, _check_profile_status cfg env (matchingProcs cfg chrome p)))

/-- The candidate profile names enumerated under the profiles root: the
directory entries when the root exists, nothing otherwise. -/
def candidateProfiles (env : MonitorEnv) : List String :=
  if env.root_exists then env.dir_entries else []

/-! ## GPM API client (api/gpm_client.py) -/

/-- A Python/JSON value as seen by `_make_request` and the response parsers. -/
inductive PyObj
  | none
  | dict (entries : List (String × PyObj))
  | list (elems : List PyObj)
  | str (s : String)
  | int (n : Int)
  | bool (b : Bool)

/-- `data is None` (gpm_client.py line 102). -/
def PyObj.isNone : PyObj → Bool
  | .none => true
  | _ => false

/-- The failure modes of the client, all surfaced as `GPMApiException` by
`_make_request` except `validation`, which models a pydantic
`ValidationError` escaping a response-schema constructor (not caught by
`except GPMApiException` handlers), and `noProfile`, the plain
`Exception("Failed to get or create profile")` raised by the orchestrator. -/
inductive GErr
  | timeout
  | requestFailed (status : Option Nat)
  | noneData
  | jsonDecode
  | unexpected
  | validation
  | noProfile
deriving DecidableEq, Repr

/-- The observable outcome of one `session.request` call: a timeout, a
transport-level `RequestException`, or an HTTP response with a status code
and a JSON body (`none` body = the body failed to parse as JSON). -/
inductive HttpOutcome
  | timeout
  | reqError (status : Option Nat)
  | response (status : Nat) (body : Option PyObj)

/-- Models `GPMApiClient._make_request` (gpm_client.py lines 55-122):
`raise_for_status` raises for statuses 400-599 (caught as a RequestException
carrying the status); an unparseable body raises; on success the envelope is
unwrapped with `result.get("data", result)` — a dict whose "data" key is
*missing* falls back to the whole envelope, a present-but-null "data" raises,
and a non-dict body has no `.get`, so the AttributeError is wrapped by the
final `except Exception`. -/
def _make_request (outcome : HttpOutcome) : Except GErr PyObj :=
  match outcome with
  | .timeout => .error .timeout
  | .reqError status => .error (.requestFailed status)
  | .response status body =>
    if 400 ≤ status then .error (.requestFailed (some status))
    else
      match body with
      | Option.none => .error .jsonDecode
      | some result =>
        match result with
        | .dict entries =>
          let data := (entries.lookup "data").getD result
          if data.isNone then .error .noneData else .ok data
        | _ => .error .unexpected

/-- Models `ProfileResponse` (schemas/profile.py) with the fields this
development observes; `id` is the string-converted id, and the optional
`status` / `remote_debugging_address` fields are kept raw. -/
structure ProfileRec where
  id : String
  name : String
  profile_path : String
  status : Option String
  remote_debugging_address : Option String
deriving DecidableEq, Repr

/-- A string field of a profile dict. -/
def pyStr? : PyObj → Option String
  | .str s => some s
  | _ => Option.none

/-- The id field: pydantic's `convert_to_str` validator stringifies ints. -/
def pyIdStr? : PyObj → Option String
  | .str s => some s
  | .int n => some (toString n)
  | _ => Option.none

/-- An optional string field: absent or null becomes `none`. -/
def pyOptStr (entries : List (String × PyObj)) (key : String) : Option String :=
  match entries.lookup key with
  | some (.str s) => some s
  | _ => Option.none

/-- Models `ProfileResponse(**profile)`: validation requires the mandatory
`id`, `name` and `profile_path` fields; `Option.none` models the pydantic
`ValidationError` raised when they are missing or ill-typed. -/
def parseProfile (o : PyObj) : Option ProfileRec :=
  match o with
  | .dict es => do
    let i ← es.lookup "id"
    let id ← pyIdStr? i
    let nm ← es.lookup "name"
    let name ← pyStr? nm
    let pp ← es.lookup "profile_path"
    let profile_path ← pyStr? pp
    some ⟨id, name, profile_path, pyOptStr es "status", pyOptStr es "remote_debugging_address"⟩
  | _ => Option.none

/-- The registry as observed by one client call sequence: the outcome of the
`GET /profiles` listing and, per profile id, the outcome of
`GET /profiles/close/{id}`. -/
structure RegistryEnv where
  profilesOutcome : HttpOutcome
  closeOutcome : String → HttpOutcome

/-- Models `GPMApiClient.get_profiles` (lines 143-154): unwrap the envelope,
parse each element as a `ProfileResponse` (a validation failure propagates as
a non-GPM exception), and return `[]` for a non-list payload. -/
def get_profiles (outcome : HttpOutcome) : Except GErr (List ProfileRec) :=
  match _make_request outcome with
  | .error e => .error e
  | .ok (.list elems) =>
    match elems.mapM parseProfile with
    | some ps => .ok ps
    | Option.none => .error .validation
  | .ok _ => .ok []

/-- Models `GPMApiClient.get_profile_by_name` (lines 172-188): a linear scan
of the full listing; note that a failure of the listing itself propagates. -/
def get_profile_by_name (env : RegistryEnv) (profile_name : String) :
    Except GErr (Option ProfileRec) :=
  match get_profiles env.profilesOutcome with
  | .error e => .error e
  | .ok profiles => .ok (profiles.find? fun p => p.name == profile_name)

/-- Models `GPMApiClient.close_profile` (lines 284-298): the close request's
`GPMApiException` is swallowed into `false`; every `_make_request` failure is
a `GPMApiException`, so the result is always a plain boolean. -/
def close_profile (env : RegistryEnv) (profile_id : String) : Bool :=
  match _make_request (env.closeOutcome profile_id) with
  | .ok _ => true
  | .error _ => false

/-- Models `GPMApiClient.close_profile_by_name` (lines 300-314): look the
name up via `get_profile_by_name` — whose errors are *not* caught here —
then `false` for an unknown name, else the boolean from `close_profile`. -/
def close_profile_by_name (env : RegistryEnv) (profile_name : String) :
    Except GErr Bool :=
  match get_profile_by_name env profile_name with
  | .error e => .error e
  | .ok Option.none => .ok false
  | .ok (some p) => .ok (close_profile env p.id)

/-! ## Launch orchestrator (services/gpm_service.py) -/

/-- Split a character list on a separator character (Python `s.split(c)`). -/
def splitOnCharAux (c : Char) : List Char → List Char → List (List Char)
  | [], acc => [acc.reverse]
  | h :: t, acc =>
    if h = c then acc.reverse :: splitOnCharAux c t []
    else splitOnCharAux c t (h :: acc)

/-- Python `addr.split(":")`, the split used to parse debugging addresses. -/
def splitOnColon (s : String) : List String :=
  (splitOnCharAux ':' s.data []).map fun l => ⟨l⟩

/-- Python `int(s)` for the nonnegative digit strings that ports are:
`none` when the string is empty or has a non-digit. -/
def strToNat? (s : String) : Option Nat :=
  if s.data.isEmpty then Option.none
  else if s.data.all fun c => c.isDigit then
    some (s.data.foldl (fun acc c => acc * 10 + (c.toNat - Char.toNat '0')) 0)
  else Option.none

/-- Models the `ProfileResponse.host` property for the plain `HOST:PORT`
debugging addresses the GPM registry produces: the hostname component, or
`none` when the address is absent or has no parseable hostname. -/
def ProfileRec.hostOf (p : ProfileRec) : Option String :=
  match p.remote_debugging_address with
  | Option.none => Option.none
  | some addr =>
    match splitOnColon addr with
    | [h, _] => if h.data.isEmpty then Option.none else some h
    | _ => Option.none

/-- Models the `ProfileResponse.port` property for plain `HOST:PORT`
addresses: the numeric port, or `none` when absent or unparseable. -/
def ProfileRec.portOf (p : ProfileRec) : Option Nat :=
  match p.remote_debugging_address with
  | Option.none => Option.none
  | some addr =>
    match splitOnColon addr with
    | [_, ps] => strToNat? ps
    | _ => Option.none

/-- Models `ProfileOpenResponse` (schemas/profile.py) with `host`/`port`
holding the values of its parsing properties. -/
structure OpenResp where
  profile_id : String
  remote_debugging_address : String
  host : String
  port : Nat
deriving DecidableEq, Repr

/-- Models `BrowserLaunchRequest` (schemas/browser.py); proxy fields are the
raw optional strings. -/
structure BrowserLaunchRequest where
  profile_name : String
  proxy_type : Option String
  proxy_string : Option String
  max_retries : Nat
  persistent_position : Nat
  window_width : Nat
  window_height : Nat
  window_x : Option Int
  window_y : Option Int
  window_scale : ℚ

/-- The window-position computation of `_start_new_profile` (gpm_service.py
lines 279-288): explicit coordinates win; otherwise row/column tiling from
the position index and `max_browsers_per_line`. -/
def computeWindowPos (cfg : GPMConfig) (req : BrowserLaunchRequest) : Int × Int :=
  match req.window_x, req.window_y with
  | some x, some y => (x, y)
  | _, _ =>
    let row := req.persistent_position / cfg.max_browsers_per_line
    let col := req.persistent_position % cfg.max_browsers_per_line
    ((col * req.window_width : Nat), (row * req.window_height : Nat))

/-- The environment of one top-level launch attempt: the outcome of each
external call the attempt may make, in source order.  Browsers are opaque
`Nat` handles; `connect*` is `none` when `_connect_to_browser` fails (it
catches its own exceptions and returns `None`).  The close calls are
`Except` because `close_profile_by_name` can propagate a listing failure. -/
structure AttemptEnv where
  getByName : Except GErr (Option ProfileRec)
  create : Except GErr ProfileRec
  status1 : ProfileStatusResult
  closePending : Except GErr Bool
  status2 : ProfileStatusResult
  getProfiles : Except GErr (List ProfileRec)
  connectRunning : Option Nat
  closeAfterConnFail : Except GErr Bool
  closeInExcept : Except GErr Bool
  startProfile : Except GErr OpenResp
  connectNew : Option Nat
  verifyOk : Bool

/-- The observable actions of a launch, in execution order.  `sleepE` records
every `asyncio.sleep` with its duration in seconds; `attemptStart` is the
start of a top-level retry-loop iteration (1-based, as printed). -/
inductive Event
  | attemptStart (n : Nat)
  | getByName
  | createProfile
  | checkStatus
  | closeByName
  | getProfilesE
  | connect (host : String) (port : Nat)
  | startProfile (profile_id : String) (win_size win_pos : String)
  | sleepE (seconds : Nat)
  | verify
  | stopBrowser
deriving DecidableEq, Repr

/-- Models `GPMService._ensure_profile_exists` (lines 150-194): return the
profile found by name (a listing failure propagates, being outside any
`try`); otherwise create it — a `GPMApiException` from creation is caught
and yields `None`, success is followed by a settle sleep. -/
def ensureProfileExists (cfg : GPMConfig) (env : AttemptEnv) :
    Except GErr (Option ProfileRec) × List Event :=
  match env.getByName with
  | .error e => (.error e, [.getByName])
  | .ok (some p) => (.ok (some p), [.getByName])
  | .ok Option.none =>
    match env.create with
    | .error _ => (.ok Option.none, [.getByName, .createProfile])
    | .ok p =>
      (.ok (some p), [.getByName, .createProfile, .sleepE cfg.connection_wait_time])

/-- Models `GPMService._start_new_profile` (lines 268-325): compute the
geometry, start via the registry, wait, connect, then verify; every failure
is caught by the enclosing `except` and becomes `None` (a verification
failure additionally stops the half-open browser before re-raising into
that handler). -/
def startNewProfile (cfg : GPMConfig) (req : BrowserLaunchRequest)
    (env : AttemptEnv) (profile : ProfileRec) : Option Nat × List Event :=
  let pos := computeWindowPos cfg req
  let startEv := Event.startProfile profile.id
    (toString req.window_width ++ "," ++ toString req.window_height)
    (toString pos.1 ++ "," ++ toString pos.2)
  match env.startProfile with
  | .error _ => (Option.none, [startEv])
  | .ok resp =>
    let evs := [startEv, .sleepE cfg.connection_wait_time, .connect resp.host resp.port]
    match env.connectNew with
    | Option.none => (Option.none, evs)
    | some b =>
      if env.verifyOk then (some b, evs ++ [.verify])
      else (Option.none, evs ++ [.verify, .stopBrowser])

/-- The `except Exception` handler of the running branch (lines 256-260):
close by name — which may itself raise and propagate — then sleep and mark
the profile not running. -/
def runningExceptHandler (cfg : GPMConfig) (env : AttemptEnv) :
    Except GErr Unit × List Event :=
  match env.closeInExcept with
  | .error e => (.error e, [.closeByName])
  | .ok _ => (.ok (), [.closeByName, .sleepE cfg.retry_delay])

/-- Lines 232-248 of the running branch: find a profile with this name and
remote status "running", and when its parsed host and port are truthy,
attempt the connection (`_connect_to_browser` returns `None` on failure,
never raises). -/
def tryConnectRunning (env : AttemptEnv) (profiles : List ProfileRec)
    (profile_name : String) : Option Nat × List Event :=
  match profiles.find? (fun p => p.name == profile_name && p.status == some "running") with
  | some p =>
    match p.hostOf, p.portOf with
    | some h, some pt =>
      if !h.data.isEmpty && pt != 0 then
        match env.connectRunning with
        | some b => (some b, [.connect h pt])
        | Option.none => (Option.none, [.connect h pt])
      else (Option.none, [])
    | _, _ => (Option.none, [])
  | Option.none => (Option.none, [])

/-- Lines 250-254: the "connection failed, close and restart" tail of the
`try` block — its close call may raise into the handler, whose own close may
propagate. -/
def closeAndFallthrough (cfg : GPMConfig) (env : AttemptEnv) :
    Except GErr (Option Nat) × List Event :=
  match env.closeAfterConnFail with
  | .ok _ => (.ok Option.none, [.closeByName, .sleepE cfg.retry_delay])
  | .error _ =>
    match runningExceptHandler cfg env with
    | (.error e, ev) => (.error e, .closeByName :: ev)
    | (.ok _, ev) => (.ok Option.none, .closeByName :: ev)

/-- The running branch of `_handle_profile_status` (lines 226-260): list the
profiles, try to connect to the already-running instance; a successful
connection returns the browser, any other path closes the profile, sleeps
and clears `is_running` (exceptions inside the `try` divert to the handler).
Result: `.ok (some b)` = connected, `.ok none` = fell through with
`is_running = False`, `.error` = propagated. -/
def runningBranch (cfg : GPMConfig) (env : AttemptEnv) (profile_name : String) :
    Except GErr (Option Nat) × List Event :=
  match env.getProfiles with
  | .error _ =>
    match runningExceptHandler cfg env with
    | (.error e, ev) => (.error e, .getProfilesE :: ev)
    | (.ok _, ev) => (.ok Option.none, .getProfilesE :: ev)
  | .ok profiles =>
    match tryConnectRunning env profiles profile_name with
    | (some b, evc) => (.ok (some b), .getProfilesE :: evc)
    | (Option.none, evc) =>
      match closeAndFallthrough cfg env with
      | (r, ev2) => (r, .getProfilesE :: evc ++ ev2)

/-- Models `GPMService._handle_profile_status` (lines 196-266): query the
status snapshot with `profile.profile_path`, close-and-recheck a pending
profile (this close may propagate), try to reconnect to a running one, and
start a new profile when not running. -/
def handleProfileStatus (cfg : GPMConfig) (req : BrowserLaunchRequest)
    (env : AttemptEnv) (profile : ProfileRec) :
    Except GErr (Option Nat) × List Event :=
  let profile_path := profile.profile_path
  let ir1 := env.status1.is_running profile_path
  let ip1 := env.status1.is_pending profile_path
  let afterPending : Except GErr Bool × List Event :=
    if ip1 then
      match env.closePending with
      | .error e => (.error e, [.checkStatus, .closeByName])
      | .ok _ =>
        (.ok (env.status2.is_running profile_path),
         [.checkStatus, .closeByName, .sleepE cfg.retry_delay, .checkStatus])
    else (.ok ir1, [.checkStatus])
  match afterPending with
  | (.error e, ev) => (.error e, ev)
  | (.ok is_running, ev) =>
    if is_running then
      match runningBranch cfg env req.profile_name with
      | (.error e, ev2) => (.error e, ev ++ ev2)
      | (.ok (some b), ev2) => (.ok (some b), ev ++ ev2)
      | (.ok Option.none, ev2) =>
        let r := startNewProfile cfg req env profile
        (.ok r.1, ev ++ ev2 ++ r.2)
    else
      let r := startNewProfile cfg req env profile
      (.ok r.1, ev ++ r.2)

/-- One iteration body of the `launch_browser` retry loop (lines 111-135):
resolve the profile — a `None` resolution raises the plain
`Exception("Failed to get or create profile")` — then dispatch on status.
`.ok (some b)` returns the browser, `.ok none` falls through to the next
iteration, `.error` is an exception reaching the top-level handler. -/
def runAttempt (cfg : GPMConfig) (req : BrowserLaunchRequest) (env : AttemptEnv) :
    Except GErr (Option Nat) × List Event :=
  match ensureProfileExists cfg env with
  | (.error e, ev) => (.error e, ev)
  | (.ok Option.none, ev) => (.error .noProfile, ev)
  | (.ok (some p), ev) =>
    let r := handleProfileStatus cfg req env p
    (r.1, ev ++ r.2)

/-- The retry loop of `launch_browser` (lines 111-148), recursing on the
remaining iterations of `range(max_retries)`: a caught exception sleeps
`retry_delay * (attempt + 1)` only when the attempt is not the last
(returning `None` otherwise), while an attempt that merely produced no
browser continues immediately; an exhausted range returns `None`. -/
def launchFrom (cfg : GPMConfig) (req : BrowserLaunchRequest)
    (oracle : Nat → AttemptEnv) : Nat → Nat → Option Nat × List Event
  | 0, _ => (Option.none, [])
  | fuel + 1, attempt =>
    let r := runAttempt cfg req (oracle attempt)
    match r.1 with
    | .ok (some b) => (some b, .attemptStart (attempt + 1) :: r.2)
    | .ok Option.none =>
      let rest := launchFrom cfg req oracle fuel (attempt + 1)
      (rest.1, (.attemptStart (attempt + 1) :: r.2) ++ rest.2)
    | .error _ =>
      if attempt < req.max_retries - 1 then
        let rest := launchFrom cfg req oracle fuel (attempt + 1)
        (rest.1,
         (.attemptStart (attempt + 1) :: r.2)
           ++ [.sleepE (cfg.retry_delay * (attempt + 1))] ++ rest.2)
      else (Option.none, .attemptStart (attempt + 1) :: r.2)

/-- The whole retry loop of `launch_browser` over an already-built request. -/
def launchLoop (cfg : GPMConfig) (req : BrowserLaunchRequest)
    (oracle : Nat → AttemptEnv) : Option Nat × List Event :=
  launchFrom cfg req oracle req.max_retries 0

/-- Python `x or default` for an optional int argument: absent or zero falls
back to the default (`max_retries or self.config.max_retries` etc.). -/
def pyOrNat (x : Option Nat) (default : Nat) : Nat :=
  match x with
  | some n => if n = 0 then default else n
  | Option.none => default

/-- Python `x or default` for the float scale argument. -/
def pyOrRat (x : Option ℚ) (default : ℚ) : ℚ :=
  match x with
  | some q => if q = 0 then default else q
  | Option.none => default

/-- Models `GPMService.launch_browser` (lines 63-148): build the
`BrowserLaunchRequest` with `or`-defaulted fields, then run the retry loop.
The result is the optional browser handle — exhausted retries are the `none`
sentinel, never an exception — paired with the event trace. -/
def launch_browser (cfg : GPMConfig) (oracle : Nat → AttemptEnv)
    (profile_name : String) (proxy_type proxy_string : Option String)
    (max_retries : Option Nat) (persistent_position : Nat)
    (window_width window_height : Option Nat) (window_x window_y : Option Int)
    (window_scale : Option ℚ) : Option Nat × List Event :=
  let req : BrowserLaunchRequest :=
    { profile_name := profile_name
      proxy_type := proxy_type
      proxy_string := proxy_string
      max_retries := pyOrNat max_retries cfg.max_retries
      persistent_position := persistent_position
      window_width := pyOrNat window_width cfg.browser_width
      window_height := pyOrNat window_height cfg.browser_height
      window_x := window_x
      window_y := window_y
      window_scale := pyOrRat window_scale cfg.browser_scale }
  launchLoop cfg req oracle

/-- Is this event the start of a top-level attempt? -/
def Event.isAttemptStart : Event → Bool
  | .attemptStart _ => true
  | _ => false

/-- Is this event a `start_profile` registry call? -/
def Event.isStart : Event → Bool
  | .startProfile _ _ _ => true
  | _ => false

/-- Is this event a `close_profile_by_name` registry call? -/
def Event.isClose : Event → Bool
  | .closeByName => true
  | _ => false

/-- Is this event an `asyncio.sleep`? -/
def Event.isSleep : Event → Bool
  | .sleepE _ => true
  | _ => false

/-- Number of top-level attempts recorded in a trace. -/
def countAttempts (tr : List Event) : Nat := tr.countP Event.isAttemptStart

/-- Number of `start_profile` calls recorded in a trace. -/
def countStarts (tr : List Event) : Nat := tr.countP Event.isStart

/-- Number of `close_profile_by_name` calls recorded in a trace. -/
def countCloses (tr : List Event) : Nat := tr.countP Event.isClose

/-- Number of sleeps recorded in a trace. -/
def countSleeps (tr : List Event) : Nat := tr.countP Event.isSleep


/-! ## Derived definitions and sample inputs used by the verification -/

/-- The full per-profile classification pipeline applied to one name. -/
def profileStatusOf (cfg : GPMConfig) (env : MonitorEnv) (p : String) : StatusInfo :=
  _check_profile_status cfg env (matchingProcs cfg (_get_chrome_processes env.procs) p)

/-- A path separator character, forward or backward. -/
def hasSep (s : String) : Bool := s.data.contains '/' || s.data.contains '\\'

/-- The point (px, py) lies in the half-open w-by-h rectangle at `pos`. -/
def inRect (pos : Int × Int) (w h : Nat) (px py : Int) : Prop :=
  pos.1 ≤ px ∧ px < pos.1 + w ∧ pos.2 ≤ py ∧ py < pos.2 + h

/-- A sample configuration (the documented defaults). -/
def cfgS : GPMConfig :=
  { gpm_api_base_url := "http://127.0.0.1:12003/api/v3"
    profiles_dir := "c:\\users\\u\\profiles"
    browser_width := 1000
    browser_height := 700
    browser_scale := (8 : ℚ) / 10
    max_browsers_per_line := 4
    max_retries := 3
    retry_delay := 5
    connection_wait_time := 3
    cpu_threshold := 2
    cpu_check_interval := (3 : ℚ) / 2
    debug := false }

/-- A sample monitor environment: two profile directories, a chrome process
whose command line names the p1 profile directory and owns the foreground
window (its CPU re-read vanished, which contributes no signal). -/
def envMonS : MonitorEnv :=
  { root_exists := true
    dir_entries := ["p1", "p2"]
    procs := [⟨100, some "chrome.exe",
               some ["C:\\Program Files\\chrome.exe", "--user-data-dir=C:\\Users\\u\\profiles\\p1"],
               5, true⟩]
    active_pids := [100]
    cpu_current := fun _ => Option.none }

/-- A monitor environment whose profiles root does not exist. -/
def envNoRoot : MonitorEnv :=
  { root_exists := false
    dir_entries := []
    procs := []
    active_pids := []
    cpu_current := fun _ => Option.none }


/-- An envelope with a successful status but no "data" key at all. -/
def envelopeMissingData : PyObj := .dict [("success", .bool true)]

/-- A registry whose every HTTP call times out. -/
def regEnvDead : RegistryEnv :=
  { profilesOutcome := .timeout
    closeOutcome := fun _ => .timeout }

/-- The JSON object of a profile named p1, running with a debugging address. -/
def profileDictS : PyObj :=
  .dict [("id", .int 7), ("name", .str "p1"),
         ("profile_path", .str "c:/users/u/profiles/p1"),
         ("status", .str "running"),
         ("remote_debugging_address", .str "127.0.0.1:9222")]

/-- A healthy registry: the listing returns p1, closes succeed. -/
def regEnvS : RegistryEnv :=
  { profilesOutcome := .response 200 (some (.dict [("data", .list [profileDictS])]))
    closeOutcome := fun _ => .response 200 (some (.dict [("data", .bool true)])) }

/-- The registry record of profile p1: its `profile_path` is a real
filesystem path (it contains separators), its remote status is "running"
and its debugging endpoint parses. -/
def p1Rec : ProfileRec :=
  { id := "7"
    name := "p1"
    profile_path := "c:/users/u/profiles/p1"
    status := some "running"
    remote_debugging_address := some "127.0.0.1:9222" }

/-- The start response for p1. -/
def openRespS : OpenResp :=
  { profile_id := "7"
    remote_debugging_address := "127.0.0.1:9222"
    host := "127.0.0.1"
    port := 9222 }

/-- An attempt environment where p1 is running (the snapshot lists the name
"p1" as running), its registry record is "running" with a connectable
endpoint, and every external call succeeds. -/
def envRunningS : AttemptEnv :=
  { getByName := .ok (some p1Rec)
    create := .error .timeout
    status1 := ⟨[], ["p1"], []⟩
    closePending := .ok true
    status2 := ⟨[], ["p1"], []⟩
    getProfiles := .ok [p1Rec]
    connectRunning := some 1
    closeAfterConnFail := .ok true
    closeInExcept := .ok true
    startProfile := .ok openRespS
    connectNew := some 2
    verifyOk := true }

/-- Every attempt sees the running-p1 environment. -/
def oracleRunning : Nat → AttemptEnv := fun _ => envRunningS

/-- As `envRunningS` but the snapshot classifies p1 as pending. -/
def envPendingS : AttemptEnv :=
  { envRunningS with status1 := ⟨[], [], ["p1"]⟩, status2 := ⟨["p1"], [], []⟩ }

/-- Every attempt sees the pending-p1 environment. -/
def oraclePending : Nat → AttemptEnv := fun _ => envPendingS

/-- p1 is stopped and the start_profile call always fails. -/
def envStartFailS : AttemptEnv :=
  { envRunningS with status1 := ⟨["p1"], [], []⟩, startProfile := .error .timeout }

/-- Every attempt sees the start-failure environment. -/
def oracleStartFail : Nat → AttemptEnv := fun _ => envStartFailS

/-- The profile-listing lookup itself always fails. -/
def envApiDeadS : AttemptEnv := { envRunningS with getByName := .error .timeout }

/-- Every attempt sees the dead-registry environment. -/
def oracleApiDead : Nat → AttemptEnv := fun _ => envApiDeadS

/-- A sample already-built launch request. -/
def reqS : BrowserLaunchRequest :=
  { profile_name := "p1"
    proxy_type := Option.none
    proxy_string := Option.none
    max_retries := 3
    persistent_position := 0
    window_width := 1000
    window_height := 700
    window_x := Option.none
    window_y := Option.none
    window_scale := 1 }

/-- The launch request at position index n with no explicit coordinates. -/
def reqAt (n : Nat) : BrowserLaunchRequest := { reqS with persistent_position := n }

/-! ## Monitor lemmas: bucket membership and partition -/

theorem mem_transform_stopped (rs : List (String × StatusInfo)) (q : String) :
    q ∈ (transformResults rs).stopped ↔ ∃ i, (q, i) ∈ rs ∧ stoppedCase i = true := by
  induction rs with
  | nil => simp [transformResults]
  | cons x rest ih =>
    obtain ⟨p, info⟩ := x
    by_cases h1 : stoppedCase info = true <;>
      by_cases h2 : (info.status == "running") = true <;>
        by_cases h3 : (info.status == "pending") = true <;>
          simp [transformResults, h1, h2, h3, ih, Prod.mk.injEq] <;>
            aesop

theorem mem_transform_running (rs : List (String × StatusInfo)) (q : String) :
    q ∈ (transformResults rs).running ↔ ∃ i, (q, i) ∈ rs ∧ runningCase i = true := by
  induction rs with
  | nil => simp [transformResults]
  | cons x rest ih =>
    obtain ⟨p, info⟩ := x
    by_cases h1 : stoppedCase info = true <;>
      by_cases h2 : (info.status == "running") = true <;>
        by_cases h3 : (info.status == "pending") = true <;>
          simp [transformResults, runningCase, h1, h2, h3, ih, Prod.mk.injEq] <;>
            aesop

theorem mem_transform_pending (rs : List (String × StatusInfo)) (q : String) :
    q ∈ (transformResults rs).pending ↔ ∃ i, (q, i) ∈ rs ∧ pendingCase i = true := by
  induction rs with
  | nil => simp [transformResults]
  | cons x rest ih =>
    obtain ⟨p, info⟩ := x
    by_cases h1 : stoppedCase info = true <;>
      by_cases h2 : (info.status == "running") = true <;>
        by_cases h3 : (info.status == "pending") = true <;>
          simp [transformResults, pendingCase, h1, h2, h3, ih, Prod.mk.injEq] <;>
            aesop

theorem statusInfo_cases (cfg : GPMConfig) (env : MonitorEnv) (procs : List ProcInfo) :
    _check_profile_status cfg env procs = ⟨false, "stopped"⟩ ∨
    _check_profile_status cfg env procs = ⟨true, "running"⟩ ∨
    _check_profile_status cfg env procs = ⟨true, "pending"⟩ := by
  by_cases hemp : procs.isEmpty = true
  · simp [_check_profile_status, hemp]
  · have h : _check_profile_status cfg env procs =
        ⟨true, if ((procs.any fun proc =>
          match env.cpu_current proc.pid with
          | Option.none => false
          | some cpu_current =>
            decide (ratAbs (cpu_current - proc.cpu_initial) > cfg.cpu_threshold) ||
            decide (proc.cpu_initial > cfg.cpu_threshold) ||
            decide (cpu_current > cfg.cpu_threshold)) ||
          (procs.any fun proc => env.active_pids.contains proc.pid))
          then "running" else "pending"⟩ := by
      simp only [_check_profile_status]
      rw [if_neg hemp]
    generalize hB : ((procs.any fun proc =>
        match env.cpu_current proc.pid with
        | Option.none => false
        | some cpu_current =>
          decide (ratAbs (cpu_current - proc.cpu_initial) > cfg.cpu_threshold) ||
          decide (proc.cpu_initial > cfg.cpu_threshold) ||
          decide (cpu_current > cfg.cpu_threshold)) ||
        (procs.any fun proc => env.active_pids.contains proc.pid)) = b at h
    cases b
    · rw [h]
      simp
    · rw [h]
      simp

theorem pair_mem_map {f : String → StatusInfo} {ps : List String} {q : String} {i : StatusInfo} :
    (q, i) ∈ ps.map (fun p => (p, f p)) ↔ q ∈ ps ∧ i = f q := by
  simp only [List.mem_map, Prod.mk.injEq]
  constructor
  · rintro ⟨a, ha, rfl, rfl⟩
    exact ⟨ha, rfl⟩
  · rintro ⟨hq, rfl⟩
    exact ⟨q, hq, rfl, rfl⟩

theorem mem_transform_map_stopped (f : String → StatusInfo) (ps : List String) (q : String) :
    q ∈ (transformResults (ps.map fun p => (p, f p))).stopped ↔
      q ∈ ps ∧ stoppedCase (f q) = true := by
  rw [mem_transform_stopped]
  constructor
  · rintro ⟨i, hmem, hc⟩
    obtain ⟨hq, rfl⟩ := pair_mem_map.mp hmem
    exact ⟨hq, hc⟩
  · rintro ⟨hq, hc⟩
    exact ⟨f q, pair_mem_map.mpr ⟨hq, rfl⟩, hc⟩

theorem mem_transform_map_running (f : String → StatusInfo) (ps : List String) (q : String) :
    q ∈ (transformResults (ps.map fun p => (p, f p))).running ↔
      q ∈ ps ∧ runningCase (f q) = true := by
  rw [mem_transform_running]
  constructor
  · rintro ⟨i, hmem, hc⟩
    obtain ⟨hq, rfl⟩ := pair_mem_map.mp hmem
    exact ⟨hq, hc⟩
  · rintro ⟨hq, hc⟩
    exact ⟨f q, pair_mem_map.mpr ⟨hq, rfl⟩, hc⟩

theorem mem_transform_map_pending (f : String → StatusInfo) (ps : List String) (q : String) :
    q ∈ (transformResults (ps.map fun p => (p, f p))).pending ↔
      q ∈ ps ∧ pendingCase (f q) = true := by
  rw [mem_transform_pending]
  constructor
  · rintro ⟨i, hmem, hc⟩
    obtain ⟨hq, rfl⟩ := pair_mem_map.mp hmem
    exact ⟨hq, hc⟩
  · rintro ⟨hq, hc⟩
    exact ⟨f q, pair_mem_map.mpr ⟨hq, rfl⟩, hc⟩

theorem check_mem (cfg : GPMConfig) (env : MonitorEnv) (q : String) :
    (q ∈ (check_all_profiles_status cfg env).stopped ↔
      q ∈ candidateProfiles env ∧ stoppedCase (profileStatusOf cfg env q) = true) ∧
    (q ∈ (check_all_profiles_status cfg env).running ↔
      q ∈ candidateProfiles env ∧ runningCase (profileStatusOf cfg env q) = true) ∧
    (q ∈ (check_all_profiles_status cfg env).pending ↔
      q ∈ candidateProfiles env ∧ pendingCase (profileStatusOf cfg env q) = true) := by
  by_cases hroot : env.root_exists = true
  case neg =>
    have hroot' : env.root_exists = false := by
      revert hroot
      cases env.root_exists <;> simp
    simp [check_all_profiles_status, candidateProfiles, hroot']
  case pos =>
    by_cases hemp : env.dir_entries.isEmpty = true
    · have hnil : env.dir_entries = [] := by
        rwa [List.isEmpty_iff] at hemp
      simp [check_all_profiles_status, candidateProfiles, hroot, hnil]
    · by_cases hch : (_get_chrome_processes env.procs).isEmpty = true
      · have hch' : _get_chrome_processes env.procs = [] := by
          rwa [List.isEmpty_iff] at hch
        have hstop : ∀ p, profileStatusOf cfg env p = ⟨false, "stopped"⟩ := by
          intro p
          simp [profileStatusOf, hch', matchingProcs, _check_profile_status]
        simp [check_all_profiles_status, candidateProfiles, hroot, hemp, hch, hstop,
          stoppedCase, runningCase, pendingCase]
      · simp only [check_all_profiles_status, candidateProfiles, hroot, hemp, hch,
          Bool.true_eq_false, if_false, if_true, Bool.false_eq_true]
        refine ⟨?_, ?_, ?_⟩
        · rw [mem_transform_map_stopped]
          simp [profileStatusOf]
        · rw [mem_transform_map_running]
          simp [profileStatusOf]
        · rw [mem_transform_map_pending]
          simp [profileStatusOf]

theorem stoppedCase_of_running {i : StatusInfo} (h : runningCase i = true) :
    stoppedCase i = false := by
  rcases Bool.eq_false_or_eq_true (stoppedCase i) with hs | hs
  · simp [runningCase, hs] at h
  · exact hs

theorem stoppedCase_of_pending {i : StatusInfo} (h : pendingCase i = true) :
    stoppedCase i = false := by
  rcases Bool.eq_false_or_eq_true (stoppedCase i) with hs | hs
  · simp [pendingCase, hs] at h
  · exact hs

theorem runningCase_of_pending {i : StatusInfo} (h : pendingCase i = true) :
    runningCase i = false := by
  simp only [pendingCase, Bool.and_eq_true, Bool.not_eq_true'] at h
  simp [runningCase, h.1.2]

theorem case_exhaustive (cfg : GPMConfig) (env : MonitorEnv) (q : String) :
    stoppedCase (profileStatusOf cfg env q) = true ∨
    runningCase (profileStatusOf cfg env q) = true ∨
    pendingCase (profileStatusOf cfg env q) = true := by
  rcases statusInfo_cases cfg env (matchingProcs cfg (_get_chrome_processes env.procs) q)
    with h | h | h <;>
    · unfold profileStatusOf
      rw [h]
      decide

/-- The partition property of the monitor, shared by the claim theorems. -/
theorem check_partition_helper (cfg : GPMConfig) (env : MonitorEnv) :
    (∀ q, (q ∈ (check_all_profiles_status cfg env).stopped ∨
           q ∈ (check_all_profiles_status cfg env).running ∨
           q ∈ (check_all_profiles_status cfg env).pending) ↔ q ∈ candidateProfiles env) ∧
    (∀ q, ¬(q ∈ (check_all_profiles_status cfg env).stopped ∧
            q ∈ (check_all_profiles_status cfg env).running)) ∧
    (∀ q, ¬(q ∈ (check_all_profiles_status cfg env).stopped ∧
            q ∈ (check_all_profiles_status cfg env).pending)) ∧
    (∀ q, ¬(q ∈ (check_all_profiles_status cfg env).running ∧
            q ∈ (check_all_profiles_status cfg env).pending)) := by
  refine ⟨fun q => ?_, fun q => ?_, fun q => ?_, fun q => ?_⟩
  · obtain ⟨hs, hr, hp⟩ := check_mem cfg env q
    rw [hs, hr, hp]
    constructor
    · rintro (⟨h, _⟩ | ⟨h, _⟩ | ⟨h, _⟩) <;> exact h
    · intro h
      rcases case_exhaustive cfg env q with hc | hc | hc
      · exact Or.inl ⟨h, hc⟩
      · exact Or.inr (Or.inl ⟨h, hc⟩)
      · exact Or.inr (Or.inr ⟨h, hc⟩)
  · obtain ⟨hs, hr, _⟩ := check_mem cfg env q
    rw [hs, hr]
    rintro ⟨⟨_, h1⟩, ⟨_, h2⟩⟩
    rw [stoppedCase_of_running h2] at h1
    cases h1
  · obtain ⟨hs, _, hp⟩ := check_mem cfg env q
    rw [hs, hp]
    rintro ⟨⟨_, h1⟩, ⟨_, h2⟩⟩
    rw [stoppedCase_of_pending h2] at h1
    cases h1
  · obtain ⟨_, hr, hp⟩ := check_mem cfg env q
    rw [hr, hp]
    rintro ⟨⟨_, h1⟩, ⟨_, h2⟩⟩
    rw [runningCase_of_pending h2] at h1
    cases h1

theorem contains_eq_false_of_not_mem {l : List String} {q : String} (h : q ∉ l) :
    l.contains q = false := by
  rcases Bool.eq_false_or_eq_true (l.contains q) with hc | hc
  · exact absurd (List.elem_iff.mp hc) h
  · exact hc


/-! ## Claim theorems: the status monitor (C3, C6, C9) -/

/-- C6: for every invocation of `check_all_profiles_status`, the three
returned lists are pairwise disjoint and their union is exactly the set of
candidate profile directory names enumerated under the profiles root. -/
theorem check_all_profiles_status_partition (cfg : GPMConfig) (env : MonitorEnv) :
    (∀ q, (q ∈ (check_all_profiles_status cfg env).stopped ∨
           q ∈ (check_all_profiles_status cfg env).running ∨
           q ∈ (check_all_profiles_status cfg env).pending) ↔ q ∈ candidateProfiles env) ∧
    (∀ q, ¬(q ∈ (check_all_profiles_status cfg env).stopped ∧
            q ∈ (check_all_profiles_status cfg env).running)) ∧
    (∀ q, ¬(q ∈ (check_all_profiles_status cfg env).stopped ∧
            q ∈ (check_all_profiles_status cfg env).pending)) ∧
    (∀ q, ¬(q ∈ (check_all_profiles_status cfg env).running ∧
            q ∈ (check_all_profiles_status cfg env).pending)) :=
  check_partition_helper cfg env

/-- C3: every element of the three buckets is a bare directory basename
(no path separator), so a query with a string containing a separator — as
the orchestrator's queries with `profile.profile_path` are — is never found:
it is not running, not pending, and its status is UNKNOWN. -/
theorem status_buckets_are_basenames (cfg : GPMConfig) (env : MonitorEnv)
    (hent : ∀ e ∈ env.dir_entries, hasSep e = false) :
    (∀ q, (q ∈ (check_all_profiles_status cfg env).stopped ∨
           q ∈ (check_all_profiles_status cfg env).running ∨
           q ∈ (check_all_profiles_status cfg env).pending) → hasSep q = false) ∧
    (∀ q, hasSep q = true →
      (check_all_profiles_status cfg env).is_running q = false ∧
      (check_all_profiles_status cfg env).is_pending q = false ∧
      (check_all_profiles_status cfg env).get_status q = ProfileStatus.UNKNOWN) := by
  have hmem : ∀ q, (q ∈ (check_all_profiles_status cfg env).stopped ∨
      q ∈ (check_all_profiles_status cfg env).running ∨
      q ∈ (check_all_profiles_status cfg env).pending) → hasSep q = false := by
    intro q hq
    have hcand := ((check_partition_helper cfg env).1 q).mp hq
    have hentq : q ∈ env.dir_entries := by
      unfold candidateProfiles at hcand
      by_cases hroot : env.root_exists = true
      · rwa [if_pos hroot] at hcand
      · rw [if_neg hroot] at hcand
        cases hcand
    exact hent q hentq
  refine ⟨hmem, fun q hq => ?_⟩
  have hns : q ∉ (check_all_profiles_status cfg env).stopped := fun hmem' => by
    rw [hmem q (Or.inl hmem')] at hq
    cases hq
  have hnr : q ∉ (check_all_profiles_status cfg env).running := fun hmem' => by
    rw [hmem q (Or.inr (Or.inl hmem'))] at hq
    cases hq
  have hnp : q ∉ (check_all_profiles_status cfg env).pending := fun hmem' => by
    rw [hmem q (Or.inr (Or.inr hmem'))] at hq
    cases hq
  refine ⟨contains_eq_false_of_not_mem hnr, contains_eq_false_of_not_mem hnp, ?_⟩
  simp [ProfileStatusResult.get_status, contains_eq_false_of_not_mem hnr,
    contains_eq_false_of_not_mem hnp, contains_eq_false_of_not_mem hns, hns, hnr, hnp]

/-- C3 witness: a concrete environment with two bare-name profile
directories, one of them running. -/
theorem status_buckets_are_basenames_witness :
    (∀ e ∈ envMonS.dir_entries, hasSep e = false) ∧
    ((∀ q, (q ∈ (check_all_profiles_status cfgS envMonS).stopped ∨
           q ∈ (check_all_profiles_status cfgS envMonS).running ∨
           q ∈ (check_all_profiles_status cfgS envMonS).pending) → hasSep q = false) ∧
    (∀ q, hasSep q = true →
      (check_all_profiles_status cfgS envMonS).is_running q = false ∧
      (check_all_profiles_status cfgS envMonS).is_pending q = false ∧
      (check_all_profiles_status cfgS envMonS).get_status q = ProfileStatus.UNKNOWN)) :=
  ⟨by decide, status_buckets_are_basenames cfgS envMonS (by decide)⟩

/-- C9 counterexample: with a missing profiles root the result is empty, so
`get_status` on a profile name yields UNKNOWN — not STOPPED as claimed. -/
theorem missing_root_not_stopped_counterexample :
    (check_all_profiles_status cfgS envNoRoot).get_status "p1" = ProfileStatus.UNKNOWN ∧
    (check_all_profiles_status cfgS envNoRoot).get_status "p1" ≠ ProfileStatus.STOPPED := by
  decide

/-- C9 amended: when the profiles root does not exist the monitor returns
the empty result without failing — nothing running, nothing pending, but
also nothing stopped, and every name's status is UNKNOWN. -/
theorem missing_root_returns_empty_result (cfg : GPMConfig) (env : MonitorEnv)
    (hroot : env.root_exists = false) :
    check_all_profiles_status cfg env = ⟨[], [], []⟩ ∧
    ∀ q, (check_all_profiles_status cfg env).is_running q = false ∧
         (check_all_profiles_status cfg env).is_pending q = false ∧
         (check_all_profiles_status cfg env).get_status q = ProfileStatus.UNKNOWN := by
  have h : check_all_profiles_status cfg env = ⟨[], [], []⟩ := by
    simp [check_all_profiles_status, hroot]
  refine ⟨h, fun q => ?_⟩
  rw [h]
  exact ⟨rfl, rfl, rfl⟩

/-- C9 witness. -/
theorem missing_root_returns_empty_result_witness :
    check_all_profiles_status cfgS envNoRoot = ⟨[], [], []⟩ ∧
    ∀ q, (check_all_profiles_status cfgS envNoRoot).is_running q = false ∧
         (check_all_profiles_status cfgS envNoRoot).is_pending q = false ∧
         (check_all_profiles_status cfgS envNoRoot).get_status q = ProfileStatus.UNKNOWN :=
  missing_root_returns_empty_result cfgS envNoRoot rfl


/-! ## Claim theorems: the API client (C7, C8) -/

/-- C7 counterexample: a 200 response whose JSON envelope has NO "data" key
is returned as-is — `result.get("data", result)` falls back to the whole
envelope — instead of raising a registry error as the claim states. -/
theorem make_request_missing_data_counterexample :
    _make_request (.response 200 (some envelopeMissingData)) =
      Except.ok envelopeMissingData ∧
    ∀ e, _make_request (.response 200 (some envelopeMissingData)) ≠ Except.error e := by
  constructor
  · rfl
  · intro e h
    rw [show _make_request (.response 200 (some envelopeMissingData)) =
      Except.ok envelopeMissingData from rfl] at h
    exact Except.noConfusion h

/-- C7 (amended): for a successful HTTP status with a JSON object body,
`_make_request` raises GPMApiException when the `data` field is present but
null; a *missing* `data` field does not raise — the whole envelope is
returned; and a present non-null `data` yields that payload. -/
theorem make_request_data_semantics (status : Nat) (entries : List (String × PyObj))
    (hst : status < 400) :
    (entries.lookup "data" = some PyObj.none →
      _make_request (.response status (some (.dict entries))) = Except.error GErr.noneData) ∧
    (entries.lookup "data" = Option.none →
      _make_request (.response status (some (.dict entries))) =
        Except.ok (.dict entries)) ∧
    (∀ v, entries.lookup "data" = some v → v.isNone = false →
      _make_request (.response status (some (.dict entries))) = Except.ok v) := by
  have hs : ¬ (400 ≤ status) := by omega
  refine ⟨fun h => ?_, fun h => ?_, fun v h hv => ?_⟩
  · simp [_make_request, hs, h, PyObj.isNone]
  · simp [_make_request, hs, h, PyObj.isNone]
  · simp [_make_request, hs, h, hv]

/-- C7 witness: a 200 response with an explicitly null data field. -/
theorem make_request_data_semantics_witness :
    (200 : Nat) < 400 ∧
    ((([("data", PyObj.none)] : List (String × PyObj)).lookup "data" = some PyObj.none →
      _make_request (.response 200 (some (.dict [("data", PyObj.none)]))) =
        Except.error GErr.noneData) ∧
    (([("data", PyObj.none)] : List (String × PyObj)).lookup "data" = Option.none →
      _make_request (.response 200 (some (.dict [("data", PyObj.none)]))) =
        Except.ok (.dict [("data", PyObj.none)])) ∧
    (∀ v, ([("data", PyObj.none)] : List (String × PyObj)).lookup "data" = some v →
      v.isNone = false →
      _make_request (.response 200 (some (.dict [("data", PyObj.none)]))) = Except.ok v)) :=
  ⟨by decide, make_request_data_semantics 200 [("data", PyObj.none)] (by decide)⟩

/-- C8 counterexample: when the profile-listing call of
`close_profile_by_name` fails, the registry exception propagates to the
caller instead of becoming `False`. -/
theorem close_by_name_propagates_counterexample :
    close_profile_by_name regEnvDead "p1" = Except.error GErr.timeout := rfl

/-- C8 (amended): `close_profile(id)` is always a plain boolean — true
exactly when the close request succeeds, never an exception;
`close_profile_by_name` yields `False` for an unknown name and wraps the
close boolean for a known one, but an error of the profile-listing lookup
propagates unchanged. -/
theorem close_semantics (env : RegistryEnv) (profile_name profile_id : String) :
    (close_profile env profile_id = true ↔
      ∃ v, _make_request (env.closeOutcome profile_id) = Except.ok v) ∧
    (∀ e, get_profiles env.profilesOutcome = Except.error e →
      close_profile_by_name env profile_name = Except.error e) ∧
    (∀ ps, get_profiles env.profilesOutcome = Except.ok ps →
      close_profile_by_name env profile_name =
        Except.ok (match ps.find? (fun p => p.name == profile_name) with
          | Option.none => false
          | some p => close_profile env p.id)) := by
  refine ⟨?_, fun e h => ?_, fun ps h => ?_⟩
  · unfold close_profile
    cases hm : _make_request (env.closeOutcome profile_id) with
    | ok v => simp [hm]
    | error er => simp [hm]
  · unfold close_profile_by_name get_profile_by_name
    rw [h]
  · unfold close_profile_by_name get_profile_by_name
    rw [h]
    cases hf : ps.find? (fun p => p.name == profile_name) <;> simp [hf]

/-- C8 witness: a healthy registry with one profile. -/
theorem close_semantics_witness :
    (close_profile regEnvS "7" = true ↔
      ∃ v, _make_request (regEnvS.closeOutcome "7") = Except.ok v) ∧
    (∀ e, get_profiles regEnvS.profilesOutcome = Except.error e →
      close_profile_by_name regEnvS "p1" = Except.error e) ∧
    (∀ ps, get_profiles regEnvS.profilesOutcome = Except.ok ps →
      close_profile_by_name regEnvS "p1" =
        Except.ok (match ps.find? (fun p => p.name == "p1") with
          | Option.none => false
          | some p => close_profile regEnvS p.id)) :=
  close_semantics regEnvS "p1" "7"

/-! ## Trace-counting lemmas for the launch orchestrator -/

theorem countAttempts_append (a b : List Event) :
    countAttempts (a ++ b) = countAttempts a + countAttempts b :=
  List.countP_append _ _ _

theorem countSleeps_append (a b : List Event) :
    countSleeps (a ++ b) = countSleeps a + countSleeps b :=
  List.countP_append _ _ _

theorem countAttempts_ensure (cfg : GPMConfig) (env : AttemptEnv) :
    countAttempts (ensureProfileExists cfg env).2 = 0 := by
  unfold ensureProfileExists
  rcases env.getByName with e | op
  · rfl
  · rcases op with _ | p
    · rcases env.create with e | p <;> rfl
    · rfl

theorem countAttempts_startNew (cfg : GPMConfig) (req : BrowserLaunchRequest)
    (env : AttemptEnv) (profile : ProfileRec) :
    countAttempts (startNewProfile cfg req env profile).2 = 0 := by
  unfold startNewProfile
  rcases env.startProfile with e | resp
  · rfl
  · rcases env.connectNew with _ | b
    · rfl
    · cases env.verifyOk <;> rfl

theorem countAttempts_runningExcept (cfg : GPMConfig) (env : AttemptEnv) :
    countAttempts (runningExceptHandler cfg env).2 = 0 := by
  unfold runningExceptHandler
  rcases env.closeInExcept with e | b <;> rfl

theorem countAttempts_tryConnect (env : AttemptEnv) (profiles : List ProfileRec)
    (profile_name : String) :
    countAttempts (tryConnectRunning env profiles profile_name).2 = 0 := by
  unfold tryConnectRunning
  rcases hf : profiles.find? (fun p => p.name == profile_name && p.status == some "running")
    with _ | p
  · simp only [hf]
    rfl
  · simp only [hf]
    rcases hh : ProfileRec.hostOf p with _ | h <;>
      rcases hp : ProfileRec.portOf p with _ | pt <;>
        simp only [hh, hp]
    · rfl
    · rfl
    · rfl
    · by_cases hb : (!h.data.isEmpty && pt != 0) = true
      · simp only [hb, if_true]
        rcases hc : env.connectRunning with _ | b <;> simp only [hc] <;> rfl
      · simp only [hb, if_false]
        rfl

theorem countAttempts_closeAndFallthrough (cfg : GPMConfig) (env : AttemptEnv) :
    countAttempts (closeAndFallthrough cfg env).2 = 0 := by
  unfold closeAndFallthrough
  rcases ha : env.closeAfterConnFail with e | b <;> simp only [ha]
  · rcases hh : runningExceptHandler cfg env with ⟨res, ev⟩
    have h0 : List.countP Event.isAttemptStart ev = 0 := by
      have hc := countAttempts_runningExcept cfg env
      rw [hh] at hc
      exact hc
    rcases res with e2 | u <;>
      simp [countAttempts, List.countP_cons, Event.isAttemptStart, h0]
  · rfl

theorem countAttempts_runningBranch (cfg : GPMConfig) (env : AttemptEnv)
    (profile_name : String) :
    countAttempts (runningBranch cfg env profile_name).2 = 0 := by
  unfold runningBranch
  rcases hg : env.getProfiles with e | profiles <;> simp only [hg]
  · rcases hh : runningExceptHandler cfg env with ⟨res, ev⟩
    have h0 : List.countP Event.isAttemptStart ev = 0 := by
      have hc := countAttempts_runningExcept cfg env
      rw [hh] at hc
      exact hc
    rcases res with e2 | u <;>
      simp [countAttempts, List.countP_cons, Event.isAttemptStart, h0]
  · rcases ht : tryConnectRunning env profiles profile_name with ⟨ob, evc⟩
    have h1 : List.countP Event.isAttemptStart evc = 0 := by
      have hc := countAttempts_tryConnect env profiles profile_name
      rw [ht] at hc
      exact hc
    rcases ob with _ | b
    · have h2 : List.countP Event.isAttemptStart (closeAndFallthrough cfg env).2 = 0 :=
        countAttempts_closeAndFallthrough cfg env
      simp [countAttempts, List.countP_cons, List.countP_append,
        Event.isAttemptStart, h1, h2]
    · simp [countAttempts, List.countP_cons, Event.isAttemptStart, h1]

theorem countAttempts_handle (cfg : GPMConfig) (req : BrowserLaunchRequest)
    (env : AttemptEnv) (profile : ProfileRec) :
    countAttempts (handleProfileStatus cfg req env profile).2 = 0 := by
  unfold handleProfileStatus
  have hsn : List.countP Event.isAttemptStart
      (startNewProfile cfg req env profile).2 = 0 :=
    countAttempts_startNew cfg req env profile
  have hrb0 := countAttempts_runningBranch cfg env req.profile_name
  by_cases hip : env.status1.is_pending profile.profile_path = true
  · simp only [hip, if_true]
    rcases hcp : env.closePending with e | b <;> simp only [hcp]
    · rfl
    · by_cases hir : env.status2.is_running profile.profile_path = true
      · simp only [hir, if_true]
        rcases hr : runningBranch cfg env req.profile_name with ⟨res, ev2⟩
        have h2 : List.countP Event.isAttemptStart ev2 = 0 := by
          rw [hr] at hrb0
          exact hrb0
        rcases res with e2 | ob
        · simp [countAttempts, List.countP_cons, List.countP_append,
            Event.isAttemptStart, h2]
        · rcases ob with _ | b2
          · simp [countAttempts, List.countP_cons, List.countP_append,
              Event.isAttemptStart, h2, hsn]
          · simp [countAttempts, List.countP_cons, List.countP_append,
              Event.isAttemptStart, h2]
      · simp only [hir, if_false]
        simp [countAttempts, List.countP_cons, List.countP_append,
          Event.isAttemptStart, hsn]
  · simp only [hip, if_false]
    by_cases hir : env.status1.is_running profile.profile_path = true
    · simp only [hir, if_true]
      rcases hr : runningBranch cfg env req.profile_name with ⟨res, ev2⟩
      have h2 : List.countP Event.isAttemptStart ev2 = 0 := by
        rw [hr] at hrb0
        exact hrb0
      rcases res with e2 | ob
      · simp [countAttempts, List.countP_cons, List.countP_append,
          Event.isAttemptStart, h2]
      · rcases ob with _ | b2
        · simp [countAttempts, List.countP_cons, List.countP_append,
            Event.isAttemptStart, h2, hsn]
        · simp [countAttempts, List.countP_cons, List.countP_append,
            Event.isAttemptStart, h2]
    · simp only [hir, if_false]
      simp [countAttempts, List.countP_cons, List.countP_append,
        Event.isAttemptStart, hsn]

theorem countAttempts_runAttempt (cfg : GPMConfig) (req : BrowserLaunchRequest)
    (env : AttemptEnv) : countAttempts (runAttempt cfg req env).2 = 0 := by
  unfold runAttempt
  rcases he : ensureProfileExists cfg env with ⟨res, ev⟩
  have h0 : List.countP Event.isAttemptStart ev = 0 := by
    have hc := countAttempts_ensure cfg env
    rw [he] at hc
    exact hc
  rcases res with e | op
  · exact h0
  · rcases op with _ | p
    · exact h0
    · rw [countAttempts_append, show countAttempts ev = 0 from h0,
        countAttempts_handle cfg req env p]

theorem launchFrom_all_error (cfg : GPMConfig) (req : BrowserLaunchRequest)
    (oracle : Nat → AttemptEnv) (e : Nat → GErr)
    (hfail : ∀ n, (oracle n).getByName = Except.error (e n)) :
    ∀ fuel attempt, fuel + attempt = req.max_retries →
      (launchFrom cfg req oracle fuel attempt).1 = Option.none ∧
      countAttempts (launchFrom cfg req oracle fuel attempt).2 = fuel := by
  intro fuel
  induction fuel with
  | zero =>
    intro attempt h
    exact ⟨rfl, rfl⟩
  | succ fuel ih =>
    intro attempt h
    have hrun : runAttempt cfg req (oracle attempt) =
        (Except.error (e attempt), [Event.getByName]) := by
      unfold runAttempt ensureProfileExists
      rw [hfail attempt]
    by_cases hlt : attempt < req.max_retries - 1
    · have hrest := ih (attempt + 1) (by omega)
      simp only [launchFrom, hrun, hlt, if_true]
      refine ⟨hrest.1, ?_⟩
      rw [countAttempts_append, countAttempts_append, hrest.2]
      show 1 + 0 + fuel = fuel + 1
      omega
    · have hfuel : fuel = 0 := by omega
      subst hfuel
      simp only [launchFrom, hrun, hlt, if_false]
      constructor <;> trivial

theorem launchFrom_silent (cfg : GPMConfig) (req : BrowserLaunchRequest)
    (oracle : Nat → AttemptEnv)
    (hfail : ∀ n, (runAttempt cfg req (oracle n)).1 = Except.ok Option.none) :
    ∀ fuel attempt,
      (launchFrom cfg req oracle fuel attempt).1 = Option.none ∧
      countAttempts (launchFrom cfg req oracle fuel attempt).2 = fuel ∧
      countSleeps (launchFrom cfg req oracle fuel attempt).2 =
        ((List.range' attempt fuel).map fun n =>
          countSleeps (runAttempt cfg req (oracle n)).2).sum := by
  intro fuel
  induction fuel with
  | zero =>
    intro attempt
    exact ⟨rfl, rfl, rfl⟩
  | succ fuel ih =>
    intro attempt
    obtain ⟨h1, h2, h3⟩ := ih (attempt + 1)
    rcases hr : runAttempt cfg req (oracle attempt) with ⟨res, ev⟩
    have hres : res = Except.ok Option.none := by
      have hh := hfail attempt
      rw [hr] at hh
      exact hh
    subst hres
    have hev0 : List.countP Event.isAttemptStart ev = 0 := by
      have hc := countAttempts_runAttempt cfg req (oracle attempt)
      rw [hr] at hc
      exact hc
    simp only [launchFrom, hr]
    refine ⟨h1, ?_, ?_⟩
    · rw [countAttempts_append, h2]
      simp [countAttempts, List.countP_cons, Event.isAttemptStart, hev0]
      omega
    · rw [countSleeps_append, h3, List.range'_succ, List.map_cons, List.sum_cons, hr]
      simp [countSleeps, List.countP_cons, Event.isSleep]

/-! ## Claim theorems: the launch orchestrator (C1, C2, C4, C5) -/

/-- C1 (code bug evaluation): the snapshot classifies p1 as running under
its name, the registry record is "running" with a parseable endpoint, and
the reuse connection would succeed — yet `launch_browser` performs one
`start_profile` call and never takes the reuse path, because
`_handle_profile_status` queries the snapshot with `profile.profile_path`
(a full path), which is never a bucket element. -/
theorem running_profile_still_started :
    envRunningS.status1.is_running p1Rec.name = true ∧
    p1Rec.status = some "running" ∧
    p1Rec.hostOf = some "127.0.0.1" ∧
    p1Rec.portOf = some 9222 ∧
    envRunningS.status1.is_running p1Rec.profile_path = false ∧
    countStarts (launch_browser cfgS oracleRunning "p1" Option.none Option.none
      (some 3) 0 Option.none Option.none Option.none Option.none Option.none).2 = 1 ∧
    (launch_browser cfgS oracleRunning "p1" Option.none Option.none
      (some 3) 0 Option.none Option.none Option.none Option.none Option.none).1 = some 2 := by
  decide

/-- C2 (code bug evaluation): the snapshot classifies p1 as pending under
its name, yet the launch issues zero `close_profile_by_name` calls before
its one `start_profile` call, because `is_pending` is queried with the full
`profile.profile_path`. -/
theorem pending_profile_not_closed :
    envPendingS.status1.is_pending p1Rec.name = true ∧
    envPendingS.status1.is_pending p1Rec.profile_path = false ∧
    countCloses (launch_browser cfgS oraclePending "p1" Option.none Option.none
      (some 3) 0 Option.none Option.none Option.none Option.none Option.none).2 = 0 ∧
    countStarts (launch_browser cfgS oraclePending "p1" Option.none Option.none
      (some 3) 0 Option.none Option.none Option.none Option.none Option.none).2 = 1 := by
  decide

/-- C4: if every registry call fails (already the per-attempt
`get_profile_by_name` lookup raises), `launch_browser` makes exactly
`max_retries` top-level attempts and then returns the `None` sentinel; the
embedding returns an `Option` — no exception escapes the loop. -/
theorem launch_browser_retry_bound (cfg : GPMConfig) (oracle : Nat → AttemptEnv)
    (e : Nat → GErr) (profile_name : String) (proxy_type proxy_string : Option String)
    (m : Nat) (persistent_position : Nat) (window_width window_height : Option Nat)
    (window_x window_y : Option Int) (window_scale : Option ℚ)
    (hm : m ≠ 0) (hfail : ∀ n, (oracle n).getByName = Except.error (e n)) :
    (launch_browser cfg oracle profile_name proxy_type proxy_string (some m)
      persistent_position window_width window_height window_x window_y window_scale).1 =
      Option.none ∧
    countAttempts (launch_browser cfg oracle profile_name proxy_type proxy_string (some m)
      persistent_position window_width window_height window_x window_y window_scale).2 = m := by
  have hmr : pyOrNat (some m) cfg.max_retries = m := by
    simp [pyOrNat, hm]
  have key := launchFrom_all_error cfg
    { profile_name := profile_name
      proxy_type := proxy_type
      proxy_string := proxy_string
      max_retries := pyOrNat (some m) cfg.max_retries
      persistent_position := persistent_position
      window_width := pyOrNat window_width cfg.browser_width
      window_height := pyOrNat window_height cfg.browser_height
      window_x := window_x
      window_y := window_y
      window_scale := pyOrRat window_scale cfg.browser_scale }
    oracle e hfail (pyOrNat (some m) cfg.max_retries) 0 (Nat.add_zero _)
  exact ⟨key.1, key.2.trans hmr⟩

/-- C4 witness: a dead registry, three attempts, then None. -/
theorem launch_browser_retry_bound_witness :
    ((3 : Nat) ≠ 0 ∧ ∀ n, (oracleApiDead n).getByName =
      Except.error ((fun _ => GErr.timeout) n)) ∧
    ((launch_browser cfgS oracleApiDead "p1" Option.none Option.none (some 3) 0
      Option.none Option.none Option.none Option.none Option.none).1 = Option.none ∧
     countAttempts (launch_browser cfgS oracleApiDead "p1" Option.none Option.none (some 3) 0
      Option.none Option.none Option.none Option.none Option.none).2 = 3) :=
  ⟨⟨by decide, fun n => rfl⟩,
    launch_browser_retry_bound cfgS oracleApiDead (fun _ => GErr.timeout) "p1"
      Option.none Option.none 3 0 Option.none Option.none Option.none Option.none
      Option.none (by decide) (fun n => rfl)⟩

/-- C5 counterexample: every attempt fails (start_profile raises, caught
inside `_start_new_profile`, which returns None), all three attempts run
and the launch fails — yet the trace contains zero sleeps: no
`retry_delay * attempt_number` backoff ever happens for these failures. -/
theorem no_backoff_sleep_counterexample :
    (launch_browser cfgS oracleStartFail "p1" Option.none Option.none
      (some 3) 0 Option.none Option.none Option.none Option.none Option.none).1 = Option.none ∧
    countAttempts (launch_browser cfgS oracleStartFail "p1" Option.none Option.none
      (some 3) 0 Option.none Option.none Option.none Option.none Option.none).2 = 3 ∧
    countSleeps (launch_browser cfgS oracleStartFail "p1" Option.none Option.none
      (some 3) 0 Option.none Option.none Option.none Option.none Option.none).2 = 0 := by
  decide

/-- C5 (amended): the backoff sleep exists only for attempts that fail by
raising into the top-level loop; when every attempt fails by returning no
browser (as start/connect/verification failures do, being caught inside
`_start_new_profile`), the loop runs all `max_retries` attempts, returns
None, and adds no sleep of its own — the total sleeps of the launch are
exactly the sleeps performed inside the attempts themselves. -/
theorem launch_no_backoff_without_exception (cfg : GPMConfig)
    (req : BrowserLaunchRequest) (oracle : Nat → AttemptEnv)
    (hfail : ∀ n, (runAttempt cfg req (oracle n)).1 = Except.ok Option.none) :
    (launchLoop cfg req oracle).1 = Option.none ∧
    countAttempts (launchLoop cfg req oracle).2 = req.max_retries ∧
    countSleeps (launchLoop cfg req oracle).2 =
      ((List.range req.max_retries).map fun n =>
        countSleeps (runAttempt cfg req (oracle n)).2).sum := by
  obtain ⟨h1, h2, h3⟩ := launchFrom_silent cfg req oracle hfail req.max_retries 0
  refine ⟨h1, h2, ?_⟩
  rw [List.range_eq_range']
  exact h3

/-- C5 amended witness: the start-failure oracle. -/
theorem launch_no_backoff_without_exception_witness :
    (∀ n, (runAttempt cfgS reqS (oracleStartFail n)).1 = Except.ok Option.none) ∧
    ((launchLoop cfgS reqS oracleStartFail).1 = Option.none ∧
     countAttempts (launchLoop cfgS reqS oracleStartFail).2 = reqS.max_retries ∧
     countSleeps (launchLoop cfgS reqS oracleStartFail).2 =
       ((List.range reqS.max_retries).map fun n =>
         countSleeps (runAttempt cfgS reqS (oracleStartFail n)).2).sum) :=
  ⟨fun n => rfl,
    launch_no_backoff_without_exception cfgS reqS oracleStartFail (fun n => rfl)⟩

/-! ## Claim theorem: window geometry (C10) -/

theorem tile_interval_eq {c1 c2 w p : Nat} (hw : 0 < w)
    (h1 : c1 * w ≤ p) (h2 : p < c1 * w + w) (h3 : c2 * w ≤ p) (h4 : p < c2 * w + w) :
    c1 = c2 := by
  have ha : c2 * w < (c1 + 1) * w := by
    rw [add_one_mul]
    exact lt_of_le_of_lt h3 h2
  have hb : c1 * w < (c2 + 1) * w := by
    rw [add_one_mul]
    exact lt_of_le_of_lt h1 h4
  have hc2 : c2 < c1 + 1 := lt_of_mul_lt_mul_right ha (Nat.zero_le w)
  have hc1 : c1 < c2 + 1 := lt_of_mul_lt_mul_right hb (Nat.zero_le w)
  omega

theorem rect_overlap_col {c1 c2 w : Nat} (hw : 0 < w) {px : Int}
    (h1 : ((c1 * w : Nat) : Int) ≤ px) (h2 : px < ((c1 * w : Nat) : Int) + (w : Nat))
    (h3 : ((c2 * w : Nat) : Int) ≤ px) (h4 : px < ((c2 * w : Nat) : Int) + (w : Nat)) :
    c1 = c2 := by
  have hn1 : c1 * w ≤ px.toNat ∧ px.toNat < c1 * w + w := by
    generalize hA : c1 * w = a at h1 h2 ⊢
    omega
  have hn2 : c2 * w ≤ px.toNat ∧ px.toNat < c2 * w + w := by
    generalize hA : c2 * w = a at h3 h4 ⊢
    omega
  exact tile_interval_eq hw hn1.1 hn1.2 hn2.1 hn2.2

theorem corner_in_rect (pos : Int × Int) {w h : Nat} (hw : 0 < w) (hh : 0 < h) :
    inRect pos w h pos.1 pos.2 := by
  unfold inRect
  refine ⟨le_refl _, ?_, le_refl _, ?_⟩ <;> omega

/-- C10: for positive window width and height and launch requests with no
explicit window_x/window_y, the (x, y) coordinates computed for distinct
position indices below `max_browsers_per_line * k` are distinct, and the
w-by-h rectangles placed there do not overlap. -/
theorem geometry_tiling (cfg : GPMConfig) (req : Nat → BrowserLaunchRequest)
    (w h k i j : Nat)
    (hreq : ∀ n, (req n).window_x = Option.none ∧ (req n).window_y = Option.none ∧
      (req n).persistent_position = n ∧ (req n).window_width = w ∧
      (req n).window_height = h)
    (hM : 0 < cfg.max_browsers_per_line) (hw : 0 < w) (hh : 0 < h)
    (hi : i < cfg.max_browsers_per_line * k) (hj : j < cfg.max_browsers_per_line * k)
    (hij : i ≠ j) :
    computeWindowPos cfg (req i) ≠ computeWindowPos cfg (req j) ∧
    ¬∃ px py : Int, inRect (computeWindowPos cfg (req i)) w h px py ∧
      inRect (computeWindowPos cfg (req j)) w h px py := by
  obtain ⟨hx1, hy1, hp1, hw1, hh1⟩ := hreq i
  obtain ⟨hx2, hy2, hp2, hw2, hh2⟩ := hreq j
  have hpos1 : computeWindowPos cfg (req i) =
      ((((i % cfg.max_browsers_per_line) * w : Nat) : Int),
       (((i / cfg.max_browsers_per_line) * h : Nat) : Int)) := by
    unfold computeWindowPos
    simp only [hx1, hy1, hp1, hw1, hh1]
  have hpos2 : computeWindowPos cfg (req j) =
      ((((j % cfg.max_browsers_per_line) * w : Nat) : Int),
       (((j / cfg.max_browsers_per_line) * h : Nat) : Int)) := by
    unfold computeWindowPos
    simp only [hx2, hy2, hp2, hw2, hh2]
  have hmain : ¬∃ px py : Int, inRect (computeWindowPos cfg (req i)) w h px py ∧
      inRect (computeWindowPos cfg (req j)) w h px py := by
    rintro ⟨px, py, hA, hB⟩
    rw [hpos1] at hA
    rw [hpos2] at hB
    obtain ⟨ha1, ha2, ha3, ha4⟩ := hA
    obtain ⟨hb1, hb2, hb3, hb4⟩ := hB
    have hcol : i % cfg.max_browsers_per_line = j % cfg.max_browsers_per_line :=
      rect_overlap_col hw ha1 ha2 hb1 hb2
    have hrow : i / cfg.max_browsers_per_line = j / cfg.max_browsers_per_line :=
      rect_overlap_col hh ha3 ha4 hb3 hb4
    apply hij
    calc i = cfg.max_browsers_per_line * (i / cfg.max_browsers_per_line) +
          i % cfg.max_browsers_per_line := (Nat.div_add_mod i _).symm
      _ = cfg.max_browsers_per_line * (j / cfg.max_browsers_per_line) +
          j % cfg.max_browsers_per_line := by rw [hcol, hrow]
      _ = j := Nat.div_add_mod j _
  refine ⟨?_, hmain⟩
  intro hEq
  apply hmain
  refine ⟨(computeWindowPos cfg (req i)).1, (computeWindowPos cfg (req i)).2,
    corner_in_rect _ hw hh, ?_⟩
  rw [← hEq]
  exact corner_in_rect _ hw hh

/-- C10 witness: the default 4-per-row 1000x700 grid, indices 0 and 1. -/
theorem geometry_tiling_witness :
    ((∀ n, (reqAt n).window_x = Option.none ∧ (reqAt n).window_y = Option.none ∧
      (reqAt n).persistent_position = n ∧ (reqAt n).window_width = 1000 ∧
      (reqAt n).window_height = 700) ∧
     0 < cfgS.max_browsers_per_line ∧ (0 : Nat) < 1000 ∧ (0 : Nat) < 700 ∧
     0 < cfgS.max_browsers_per_line * 1 ∧ 1 < cfgS.max_browsers_per_line * 1 ∧
     (0 : Nat) ≠ 1) ∧
    (computeWindowPos cfgS (reqAt 0) ≠ computeWindowPos cfgS (reqAt 1) ∧
     ¬∃ px py : Int, inRect (computeWindowPos cfgS (reqAt 0)) 1000 700 px py ∧
       inRect (computeWindowPos cfgS (reqAt 1)) 1000 700 px py) :=
  ⟨⟨fun n => ⟨rfl, rfl, rfl, rfl, rfl⟩, by decide, by decide, by decide,
    by decide, by decide, by decide⟩,
   geometry_tiling cfgS reqAt 1000 700 1 0 1
     (fun n => ⟨rfl, rfl, rfl, rfl, rfl⟩) (by decide) (by decide) (by decide)
     (by decide) (by decide) (by decide)⟩

end NodriveGPM
